import Mathlib

/-!
Verification of the AAAS Social Seller dashboard (src/aaas_final.py).

The program is sequential glue around a lead table: it loads rows from a
spreadsheet, classifies sentiment of interaction texts, filters the table by
status / platform / date range, computes summary metrics, and offers actions
(WhatsApp notification per row, PDF report, refresh, backup).

The embedding below translates the repository's own code.  External
collaborators (the HuggingFace sentiment pipeline, pandas date parsing, the
notification transport inside the notify loop) are parameters of the
corresponding functions: a classifier is a `String → Option ClassifierResult`
where `none` models an exception raised inside the library, and a date parser
is a `String → Option Int` where `none` models an unparseable date value.
Dates are represented as integers (day ordinals); order and equality are all
the code uses.  Currency values and confidence scores are rationals.
-/

/-- A loaded lead row: the columns of the CRM sheet after `_carregar_dados`
has converted the `Data` column to a date. -/
structure Row where
  nome : String
  telefone : String
  plataforma : String
  status : String
  interacao : String
  valor : Rat
  data : Int
deriving DecidableEq, Repr

/-- A raw lead row as fetched by `sheet.get_all_records()`, before the
`Data` column is converted: the date is still a string. -/
structure RawRow where
  nome : String
  telefone : String
  plataforma : String
  status : String
  interacao : String
  valor : Rat
  data : String
deriving DecidableEq, Repr

/-- `df['Data'] = pd.to_datetime(df['Data'])` with pandas' default error
handling: the conversion of the whole column raises as soon as one entry
fails to parse, so the load returns `none` (the exception propagates out of
`_carregar_dados`) unless every row's date parses. -/
def carregar_dados (parse : String → Option Int) (raws : List RawRow) :
    Option (List Row) :=
  raws.mapM fun raw =>
    (parse raw.data).map fun d =>
      { nome := raw.nome, telefone := raw.telefone, plataforma := raw.plataforma,
        status := raw.status, interacao := raw.interacao, valor := raw.valor,
        data := d }

/-- Row predicate of `dados_filtrados["Status"].isin(status_filtro)`, guarded
by `if status_filtro:` — an empty selection applies no restriction. -/
def matchesStatus (status_filtro : List String) (r : Row) : Bool :=
  status_filtro.isEmpty || status_filtro.contains r.status

/-- Row predicate of `dados_filtrados["Plataforma"].isin(plataforma_filtro)`,
guarded by `if plataforma_filtro:`. -/
def matchesPlataforma (plataforma_filtro : List String) (r : Row) : Bool :=
  plataforma_filtro.isEmpty || plataforma_filtro.contains r.plataforma

/-- Row predicate of the date-range mask
`(Data >= data_min) & (Data <= data_max)`. -/
def matchesData (data_min data_max : Int) (r : Row) : Bool :=
  decide (data_min ≤ r.data) && decide (r.data ≤ data_max)

/-- The filter block of `main` (lines 108-116): start from a copy of the
loaded table, restrict by status if a status selection is non-empty, then by
platform if a platform selection is non-empty, then always by the inclusive
date range. -/
def filtrar (dados : List Row) (status_filtro plataforma_filtro : List String)
    (data_min data_max : Int) : List Row :=
  let d1 := if status_filtro.isEmpty then dados
            else dados.filter (matchesStatus status_filtro)
  let d2 := if plataforma_filtro.isEmpty then d1
            else d1.filter (matchesPlataforma plataforma_filtro)
  d2.filter (matchesData data_min data_max)

lemma matchesStatus_of_empty (r : Row) (sf : List String) (h : sf.isEmpty) :
    matchesStatus sf r = true := by
  simp [matchesStatus, h]

lemma matchesPlataforma_of_empty (r : Row) (pf : List String) (h : pf.isEmpty) :
    matchesPlataforma pf r = true := by
  simp [matchesPlataforma, h]

/-- The three-stage filter agrees with a single pass with the conjunction of
the three row predicates. -/
lemma filtrar_eq_filter (dados : List Row) (sf pf : List String)
    (dmin dmax : Int) :
    filtrar dados sf pf dmin dmax =
      dados.filter (fun r =>
        matchesStatus sf r && matchesPlataforma pf r && matchesData dmin dmax r) := by
  unfold filtrar
  by_cases hs : sf.isEmpty <;> by_cases hp : pf.isEmpty <;>
    simp [hs, hp, List.filter_filter, matchesStatus_of_empty, matchesPlataforma_of_empty,
      matchesStatus, matchesPlataforma, Bool.and_comm, Bool.and_left_comm]

lemma mem_filtrar_iff (dados : List Row) (sf pf : List String)
    (dmin dmax : Int) (r : Row) :
    r ∈ filtrar dados sf pf dmin dmax ↔
      r ∈ dados ∧ matchesStatus sf r = true ∧ matchesPlataforma pf r = true ∧
        matchesData dmin dmax r = true := by
  rw [filtrar_eq_filter, List.mem_filter]
  simp [and_assoc]

/-- The raw result of the sentiment pipeline on one text:
`resultado = self.sentiment_analyzer(texto)[0]`, a label and a score. -/
structure ClassifierResult where
  label : String
  score : Rat
deriving DecidableEq, Repr

/-- The value `AAAS.analisar_sentimento` returns. -/
structure SentResult where
  sentimento : String
  confianca : Rat
deriving DecidableEq, Repr

/-- `AAAS.analisar_sentimento` (lines 39-52).  The external pipeline is the
parameter `clf`; `clf texto = none` models an exception raised anywhere in
the `try` block, which the `except` arm turns into a NEUTRO result with
confidence 0.  On success the label is mapped POSITIVE ↦ POSITIVO,
NEGATIVE ↦ NEGATIVO, anything else ↦ NEUTRO, and the score is passed through. -/
def analisar_sentimento (clf : String → Option ClassifierResult)
    (texto : String) : SentResult :=
  match clf texto with
  | none => { sentimento := "NEUTRO", confianca := 0 }
  | some resultado =>
      let sentimento :=
        if resultado.label = "POSITIVE" then "POSITIVO"
        else if resultado.label = "NEGATIVE" then "NEGATIVO"
        else "NEUTRO"
      { sentimento := sentimento, confianca := resultado.score }

/-- The value `AAAS.enviar_whatsapp` returns: a status string, plus a message
identifier on the success shape or a details string on the error shape. -/
structure WhatsResult where
  status : String
  message_id : Option String
  detalhes : Option String
deriving DecidableEq, Repr

/-- `AAAS.enviar_whatsapp` (lines 54-60): a stub that prints and returns the
success dictionary; nothing in its `try` block can fail, so the error arm is
dead and the result is always `status = "enviado"` with a
`WA_<timestamp>` identifier.  The wall-clock timestamp is the parameter `ts`. -/
def enviar_whatsapp (telefone mensagem : String) (ts : Int) : WhatsResult :=
  { status := "enviado", message_id := some ("WA_" ++ toString ts),
    detalhes := none }

/-- Python true division as used on line 124: raises `ZeroDivisionError`
when the denominator is zero, modelled as `none`. -/
def pydiv (a b : Rat) : Option Rat :=
  if b = 0 then none else some (a / b)

/-- Line 123: count the rows of the filtered subset whose interaction text
classifies as POSITIVO. -/
def positivos (clf : String → Option ClassifierResult)
    (subset : List Row) : Nat :=
  (subset.map (fun r => analisar_sentimento clf r.interacao)).countP
    (fun s => s.sentimento = "POSITIVO")

/-- The percentage shown on line 124, `positivos/len(dados_filtrados)*100`:
Python division raises on an empty subset, so the result is an `Option`. -/
def percentPositivos (clf : String → Option ClassifierResult)
    (subset : List Row) : Option Rat :=
  (pydiv (positivos clf subset) subset.length).map (· * 100)

/-- `dados_filtrados['Valor'].mean()` on line 125: pandas yields NaN on an
empty column, modelled as `none`. -/
def valorMedio (subset : List Row) : Option Rat :=
  if subset.length = 0 then none
  else some ((subset.map Row.valor).sum / subset.length)

/-- One line of the per-row notification report: `st.success(...)` or
`st.error(...)` with the row's name. -/
inductive NotifyReport where
  | success (nome : String)
  | failure (nome : String)
deriving DecidableEq, Repr

/-- The message template of line 148. -/
def mensagemPara (r : Row) : String :=
  "Olá " ++ r.nome ++ "! Obrigado pelo contato via " ++ r.plataforma ++ "."

/-- The notify loop (lines 146-153): for each row of the filtered subset, in
order, build the templated message, call the transport, and report success
when the returned status is "enviado" and failure otherwise.  The transport
is the parameter `send` so that per-row failures can be considered; the loop
itself never breaks out early. -/
def notificar (send : String → String → WhatsResult)
    (subset : List Row) : List NotifyReport :=
  subset.map fun r =>
    let resultado := send r.telefone (mensagemPara r)
    if resultado.status = "enviado" then NotifyReport.success r.nome
    else NotifyReport.failure r.nome

/-- Whether a report line is a success line. -/
def NotifyReport.isSuccess : NotifyReport → Bool
  | NotifyReport.success _ => true
  | NotifyReport.failure _ => false

/-- The text lines the PDF report writes (lines 159-161): title, period and
total count, each a pure function of the filtered subset and the date range. -/
def relatorioPDF (subset : List Row) (data_min data_max : Int) : List String :=
  ["Relatório AAAS - Social Seller",
   "Período: " ++ toString data_min ++ " a " ++ toString data_max,
   "Total Leads: " ++ toString subset.length]

/-- The in-memory application state: the loaded lead table `aaas.dados`. -/
structure AppState where
  dados : List Row
deriving DecidableEq, Repr

/-- The session filter criteria selected in the sidebar. -/
structure Criteria where
  status_filtro : List String
  plataforma_filtro : List String
  data_min : Int
  data_max : Int
deriving DecidableEq, Repr

/-- Computing the filtered subset (lines 108-116) reads the state and
produces a fresh list; the state is returned unchanged. -/
def acaoFiltrar (s : AppState) (c : Criteria) : AppState × List Row :=
  (s, filtrar s.dados c.status_filtro c.plataforma_filtro c.data_min c.data_max)

/-- Computing the overview metrics (lines 120-125) reads the filtered subset;
the state is returned unchanged. -/
def acaoMetricas (clf : String → Option ClassifierResult) (s : AppState)
    (c : Criteria) : AppState × (Nat × Option Rat × Option Rat) :=
  let subset := (acaoFiltrar s c).2
  (s, (subset.length, percentPositivos clf subset, valorMedio subset))

/-- Rendering the charts and the table (lines 127-139) is a function of the
filtered subset; the state is returned unchanged. -/
def acaoRender (s : AppState) (c : Criteria) : AppState × List Row :=
  (s, (acaoFiltrar s c).2)

/-- The notify action (lines 146-153); the state is returned unchanged. -/
def acaoNotificar (send : String → String → WhatsResult) (s : AppState)
    (c : Criteria) : AppState × List NotifyReport :=
  (s, notificar send (acaoFiltrar s c).2)

/-- The PDF-report action (lines 155-165); the state is returned unchanged. -/
def acaoRelatorio (s : AppState) (c : Criteria) : AppState × List String :=
  (s, relatorioPDF (acaoFiltrar s c).2 c.data_min c.data_max)

/-- `AAAS.backup_gdrive` uploads a file and returns a boolean; the upload
outcome is the parameter `ok`; the lead table is not touched. -/
def acaoBackup (s : AppState) (ok : Bool) : AppState × Bool :=
  (s, ok)

/-- The Refresh action (lines 142-144): `aaas.dados = aaas._carregar_dados()`
replaces the table wholesale with the freshly loaded rows. -/
def acaoAtualizar (s : AppState) (novo : List Row) : AppState × Unit :=
  ({ dados := novo }, ())

/-- A concrete date parser for evaluating the load path. -/
def parseExemplo : String → Option Int := fun s =>
  if s = "2024-01-01" then some 1
  else if s = "2024-01-02" then some 2
  else none

/-- A raw row whose date parses. -/
def rawBoa : RawRow :=
  { nome := "Ana", telefone := "111", plataforma := "Instagram",
    status := "Novo", interacao := "Gostei", valor := 10, data := "2024-01-01" }

/-- A raw row whose date does not parse. -/
def rawRuim : RawRow :=
  { nome := "Bia", telefone := "222", plataforma := "Facebook",
    status := "Novo", interacao := "Ok", valor := 20, data := "sem-data" }

/-- Concrete loaded rows used to instantiate the filter theorems: statuses
A, B, A and platforms X, Y, X, dates 1, 2, 3. -/
def rowA1 : Row :=
  { nome := "Ana", telefone := "111", plataforma := "X", status := "A",
    interacao := "Gostei", valor := 10, data := 1 }

/-- Second concrete row (status B, platform Y). -/
def rowB : Row :=
  { nome := "Bia", telefone := "222", plataforma := "Y", status := "B",
    interacao := "Ok", valor := 20, data := 2 }

/-- Third concrete row (status A, platform X). -/
def rowA2 : Row :=
  { nome := "Caio", telefone := "333", plataforma := "X", status := "A",
    interacao := "Ruim", valor := 30, data := 3 }

/-- Claim C1: for every loaded table and every filter criteria, the filtered
subset is a subset of the input rows; a row appears in the result iff it
matches every non-empty criterion dimension; an empty status or platform
criterion imposes no restriction on that dimension, and filtering is
conjunctive across the three dimensions. -/
theorem filtrar_subset_conjunctive (dados : List Row)
    (sf pf : List String) (dmin dmax : Int) (r : Row) :
    (r ∈ filtrar dados sf pf dmin dmax → r ∈ dados) ∧
    (r ∈ filtrar dados sf pf dmin dmax ↔
      r ∈ dados ∧ matchesStatus sf r = true ∧ matchesPlataforma pf r = true ∧
        matchesData dmin dmax r = true) ∧
    (sf = [] → matchesStatus sf r = true) ∧
    (pf = [] → matchesPlataforma pf r = true) := by
  refine ⟨?_, mem_filtrar_iff dados sf pf dmin dmax r, ?_, ?_⟩
  · intro h
    exact ((mem_filtrar_iff dados sf pf dmin dmax r).mp h).1
  · intro h; subst h; rfl
  · intro h; subst h; rfl

/-- Witness for C1, the spec scenario: statuses A, B, A and platforms
X, Y, X filtered to status A — a status-A row is in the result, hence also
in the input table. -/
theorem filtrar_subset_conjunctive_witness :
    rowA1 ∈ [rowA1, rowB, rowA2] ∧ rowA1 ∈ filtrar [rowA1, rowB, rowA2] ["A"] [] 0 10 :=
  ⟨(filtrar_subset_conjunctive [rowA1, rowB, rowA2] ["A"] [] 0 10 rowA1).1 (by decide),
   (filtrar_subset_conjunctive [rowA1, rowB, rowA2] ["A"] [] 0 10 rowA1).2.1.mpr
     (by refine ⟨by decide, by decide, by decide, by decide⟩)⟩

/-- Claim C2 (code bug): on the empty filtered subset the percentage of
positives on line 124 is `positivos/len(dados_filtrados)*100`, a Python
division whose denominator is 0 — it raises `ZeroDivisionError` (modelled
`none`), and `mean()` of the empty Value column is NaN (modelled `none`);
neither is the 0 the specification requires. -/
theorem percentPositivos_empty_divzero :
    percentPositivos (fun _ => none) [] = none ∧
    valorMedio ([] : List Row) = none := by
  constructor <;> rfl

/-- Claim C3 (amended): for every classifier behaviour the adapter never
throws past its boundary — it is a total function, and any internal
classifier failure is mapped to NEUTRO with confidence 0; in particular the
empty string gets the NEUTRO/0 result whenever the underlying classifier
fails on it. -/
theorem analisar_sentimento_failure_neutral
    (clf : String → Option ClassifierResult) (texto : String)
    (h : clf texto = none) :
    analisar_sentimento clf texto = { sentimento := "NEUTRO", confianca := 0 } := by
  simp [analisar_sentimento, h]

/-- Witness for C3: a classifier that fails on the empty string yields the
NEUTRO/0 result there. -/
theorem analisar_sentimento_failure_neutral_witness :
    analisar_sentimento (fun _ => none) "" =
      { sentimento := "NEUTRO", confianca := 0 } :=
  analisar_sentimento_failure_neutral (fun _ => none) "" rfl

/-- Counterexample for C3 as stated: the adapter does not special-case the
empty string, so with a classifier that succeeds on "" (as the real pipeline
does) the returned confidence is the classifier's score, not 0. -/
theorem analisar_sentimento_empty_counterexample :
    (analisar_sentimento
        (fun _ => some { label := "POSITIVE", score := (9 : Rat)/10 })
        "").confianca ≠ 0 := by
  norm_num [analisar_sentimento]

/-- Claim C4 (code bug): `pd.to_datetime(df['Data'])` is called with the
default raise-on-error behaviour, so one unparseable date aborts the whole
load — here a table with one good and one bad row loads as `none`, even
though the good row's date parses. -/
theorem carregar_dados_aborts_on_bad_date :
    carregar_dados parseExemplo [rawBoa, rawRuim] = none ∧
    parseExemplo rawBoa.data = some 1 := by
  constructor <;> rfl

/-- Claim C5: the notify loop emits exactly one report per row of the
filtered subset, in order (the i-th report is the templated send outcome of
the i-th row), and the success/failure counts equal the counts of rows whose
send succeeded/failed — no early termination, so one failing send among N
rows yields 1 failure and N-1 successes in order. -/
theorem notificar_per_row (send : String → String → WhatsResult)
    (subset : List Row) (i : Nat) :
    (notificar send subset).length = subset.length ∧
    (notificar send subset)[i]? = (subset[i]?).map (fun r =>
      if (send r.telefone (mensagemPara r)).status = "enviado"
      then NotifyReport.success r.nome else NotifyReport.failure r.nome) ∧
    (notificar send subset).countP (fun rep => rep.isSuccess) =
      subset.countP
        (fun r => decide ((send r.telefone (mensagemPara r)).status = "enviado")) ∧
    (notificar send subset).countP (fun rep => !rep.isSuccess) =
      subset.countP
        (fun r => !(decide ((send r.telefone (mensagemPara r)).status = "enviado"))) := by
  refine ⟨by simp [notificar], by simp [notificar], ?_, ?_⟩ <;>
  · unfold notificar
    rw [List.countP_map]
    refine List.countP_congr ?_
    intro r _
    by_cases h : (send r.telefone (mensagemPara r)).status = "enviado" <;>
      simp [h, NotifyReport.isSuccess, Function.comp]

/-- Claim C6: the date-range filter is inclusive on both ends — with no
status/platform restriction, a row of the table whose date equals either
boundary of the range is in the filtered subset. -/
theorem filtrar_data_inclusive (dados : List Row) (dmin dmax : Int) (r : Row)
    (hmem : r ∈ dados) (hrange : dmin ≤ dmax)
    (hdate : r.data = dmin ∨ r.data = dmax) :
    r ∈ filtrar dados [] [] dmin dmax := by
  rw [mem_filtrar_iff]
  refine ⟨hmem, rfl, rfl, ?_⟩
  rcases hdate with h | h <;> simp [matchesData, h, hrange]

/-- Witness for C6: a row dated exactly at the lower boundary passes the
filter. -/
theorem filtrar_data_inclusive_witness :
    rowA1 ∈ filtrar [rowA1, rowB] [] [] 1 2 :=
  filtrar_data_inclusive [rowA1, rowB] 1 2 rowA1 (by decide) (by decide)
    (Or.inl (by decide))

/-- Claim C7: the report builder is deterministic — equal filtered subsets
and equal ranges give the same document — and the document contains the date
range line and the total-count line. -/
theorem relatorioPDF_deterministic (subset1 subset2 : List Row)
    (dmin dmax : Int) :
    (subset1 = subset2 →
      relatorioPDF subset1 dmin dmax = relatorioPDF subset2 dmin dmax) ∧
    ("Período: " ++ toString dmin ++ " a " ++ toString dmax)
      ∈ relatorioPDF subset1 dmin dmax ∧
    ("Total Leads: " ++ toString subset1.length)
      ∈ relatorioPDF subset1 dmin dmax := by
  refine ⟨fun h => by rw [h], ?_, ?_⟩ <;> simp [relatorioPDF]

/-- Witness for C7 at a concrete subset and range. -/
theorem relatorioPDF_deterministic_witness :
    (relatorioPDF [rowA1] 1 3 = relatorioPDF [rowA1] 1 3) ∧
    ("Período: " ++ toString (1 : Int) ++ " a " ++ toString (3 : Int))
      ∈ relatorioPDF [rowA1] 1 3 ∧
    ("Total Leads: " ++ toString [rowA1].length) ∈ relatorioPDF [rowA1] 1 3 :=
  ⟨(relatorioPDF_deterministic [rowA1] [rowA1] 1 3).1 rfl,
   (relatorioPDF_deterministic [rowA1] [rowA1] 1 3).2.1,
   (relatorioPDF_deterministic [rowA1] [rowA1] 1 3).2.2⟩

/-- Claim C8: the notification stub always succeeds — for every phone
number, message and timestamp the status is "enviado" and a message
identifier is present; the error status is never produced. -/
theorem enviar_whatsapp_always_enviado (telefone mensagem : String)
    (ts : Int) :
    (enviar_whatsapp telefone mensagem ts).status = "enviado" ∧
    (enviar_whatsapp telefone mensagem ts).message_id =
      some ("WA_" ++ toString ts) ∧
    (enviar_whatsapp telefone mensagem ts).detalhes = none :=
  ⟨rfl, rfl, rfl⟩

/-- Claim C9: the sentiment label is always one of POSITIVO, NEGATIVO,
NEUTRO, and on classifier success the mapping is POSITIVE ↦ POSITIVO,
NEGATIVE ↦ NEGATIVO, any other label ↦ NEUTRO. -/
theorem analisar_sentimento_label_range
    (clf : String → Option ClassifierResult) (texto : String) :
    ((analisar_sentimento clf texto).sentimento = "POSITIVO" ∨
     (analisar_sentimento clf texto).sentimento = "NEGATIVO" ∨
     (analisar_sentimento clf texto).sentimento = "NEUTRO") ∧
    (∀ res : ClassifierResult, clf texto = some res →
      (analisar_sentimento clf texto).sentimento =
        (if res.label = "POSITIVE" then "POSITIVO"
         else if res.label = "NEGATIVE" then "NEGATIVO" else "NEUTRO")) := by
  constructor
  · unfold analisar_sentimento
    rcases clf texto with _ | res
    · simp
    · by_cases h1 : res.label = "POSITIVE" <;>
        by_cases h2 : res.label = "NEGATIVE" <;> simp [h1, h2]
  · intro res h
    simp [analisar_sentimento, h]

/-- Witness for C9: a classifier answering an unexpected label LABEL_2 maps
to NEUTRO. -/
theorem analisar_sentimento_label_range_witness :
    (analisar_sentimento (fun _ => some { label := "LABEL_2", score := 1 })
      "x").sentimento = "NEUTRO" := by
  have h := (analisar_sentimento_label_range
    (fun _ => some { label := "LABEL_2", score := 1 }) "x").2
    { label := "LABEL_2", score := 1 } rfl
  simpa using h

/-- Claim C10: filtering, metric computation, rendering, notify, report
export and backup all leave the loaded lead table unchanged; only the
Refresh action replaces it, and it replaces it wholesale. -/
theorem acoes_preservam_dados (s : AppState) (c : Criteria)
    (clf : String → Option ClassifierResult)
    (send : String → String → WhatsResult) (ok : Bool) (novo : List Row) :
    (acaoFiltrar s c).1 = s ∧
    (acaoMetricas clf s c).1 = s ∧
    (acaoRender s c).1 = s ∧
    (acaoNotificar send s c).1 = s ∧
    (acaoRelatorio s c).1 = s ∧
    (acaoBackup s ok).1 = s ∧
    (acaoAtualizar s novo).1.dados = novo :=
  ⟨rfl, rfl, rfl, rfl, rfl, rfl, rfl⟩
